import Mathlib

/-!
A shallow embedding of the peripheral register access layer in `src/rpi.c`.

Registers are modelled as natural numbers holding 32-bit values; the C
complement `~` on a `uint32_t` is modelled as XOR with `2 ^ 32 - 1`.  The
GPIO function-select bank is a function from register index to value.
Hardware-driven status registers (the clock manager's BUSY flag, the
two-wire engine's status register S) are modelled by explicit parameters: a
read oracle giving the value returned by each successive read of the clock
control register, and a status-snapshot parameter used by the
classification phase of a bus transaction.
-/

namespace Rpi

/-- `setBit` of rpi.c: `*reg |= 1 << position`. -/
def setBit (v p : Nat) : Nat := v ||| (1 <<< p)

/-- `clearBit` of rpi.c: `*reg &= ~(1 << position)`, the complement taken on
32 bits. -/
def clearBit (v p : Nat) : Nat := v &&& ((2 ^ 32 - 1) ^^^ (1 <<< p))

/-- `isBitSet` of rpi.c: `*reg & (1 << position) ? 1 : 0`. -/
def isBitSet (v p : Nat) : Bool := Nat.testBit v p

/-- `set_gpio` of rpi.c (lines 333-349): the owning register is
`GPSEL + pin / 10`; the pin's 3-bit field is first cleared with the inverse
mask `~(7 << (pin % 10) * 3)` and the new code is then ORed in, as two
separate register operations. -/
def set_gpio (bank : Nat → Nat) (pin fsel : Nat) : Nat → Nat :=
  let r := pin / 10
  let sh := pin % 10 * 3
  let v1 := bank r &&& ((2 ^ 32 - 1) ^^^ (7 <<< sh))
  let v2 := v1 ||| (fsel <<< sh)
  fun j => if j = r then v2 else bank j

/-- Decoder for a pin's 3-bit function-select field in the bank. -/
def fselOf (bank : Nat → Nat) (pin : Nat) : Nat :=
  bank (pin / 10) >>> (pin % 10 * 3) &&& 7

theorem testBit_seven_ge {i : Nat} (h : 3 ≤ i) : Nat.testBit 7 i = false :=
  Nat.testBit_lt_two_pow
    (Nat.lt_of_lt_of_le (by norm_num) (Nat.pow_le_pow_right (by norm_num) h))

theorem testBit_ge_of_le_seven {f i : Nat} (hf : f ≤ 7) (h : 3 ≤ i) :
    Nat.testBit f i = false :=
  Nat.testBit_lt_two_pow
    (Nat.lt_of_le_of_lt hf
      (Nat.lt_of_lt_of_le (by norm_num) (Nat.pow_le_pow_right (by norm_num) h)))

theorem field_update_self (v f sh : Nat) (hsh : sh ≤ 27) (hf : f ≤ 7) :
    ((v &&& ((2 ^ 32 - 1) ^^^ (7 <<< sh))) ||| (f <<< sh)) >>> sh &&& 7 = f := by
  apply Nat.eq_of_testBit_eq
  intro i
  simp only [Nat.testBit_and, Nat.testBit_or, Nat.testBit_shiftRight,
    Nat.testBit_shiftLeft, Nat.testBit_xor, Nat.testBit_two_pow_sub_one]
  rcases Nat.lt_or_ge i 3 with h3 | h3
  · have h7 : Nat.testBit 7 i = true := by interval_cases i <;> decide
    have h32 : sh + i < 32 := by omega
    have hge : sh ≤ sh + i := Nat.le_add_right _ _
    simp [h32, hge, Nat.add_sub_cancel_left, h7]
  · simp [testBit_seven_ge h3, testBit_ge_of_le_seven hf h3]

theorem field_update_other (v f sh t : Nat) (hsh : sh ≤ 27) (ht : t ≤ 27)
    (hf : f ≤ 7) (hd : t + 3 ≤ sh ∨ sh + 3 ≤ t) :
    ((v &&& ((2 ^ 32 - 1) ^^^ (7 <<< sh))) ||| (f <<< sh)) >>> t &&& 7 =
      v >>> t &&& 7 := by
  apply Nat.eq_of_testBit_eq
  intro i
  simp only [Nat.testBit_and, Nat.testBit_or, Nat.testBit_shiftRight,
    Nat.testBit_shiftLeft, Nat.testBit_xor, Nat.testBit_two_pow_sub_one]
  rcases Nat.lt_or_ge i 3 with h3 | h3
  · have h32 : t + i < 32 := by omega
    rcases hd with hlt | hgt
    · have hns : ¬ (sh ≤ t + i) := by omega
      simp [h32, hns]
    · have hge : sh ≤ t + i := by omega
      have h7 : Nat.testBit 7 (t + i - sh) = false := testBit_seven_ge (by omega)
      have hfb : Nat.testBit f (t + i - sh) = false :=
        testBit_ge_of_le_seven hf (by omega)
      simp [h32, hge, h7, hfb]
  · simp [testBit_seven_ge h3]

/-- Claim C1: for every pin 0-53 and function code 0-7, `set_gpio` updates
only the register at index `pin / 10`; afterwards the pin's own 3-bit field
decodes to exactly the given code, and the 3-bit fields of the sibling pins
sharing the same register decode bit-for-bit to their previous values. -/
theorem set_gpio_correct (bank : Nat → Nat) (pin fsel : Nat)
    (hp : pin ≤ 53) (hf : fsel ≤ 7) :
    fselOf (set_gpio bank pin fsel) pin = fsel ∧
    (∀ q, q ≤ 53 → q / 10 = pin / 10 → q ≠ pin →
      fselOf (set_gpio bank pin fsel) q = fselOf bank q) ∧
    (∀ j, j ≠ pin / 10 → set_gpio bank pin fsel j = bank j) := by
  have hsh : pin % 10 * 3 ≤ 27 := by omega
  refine ⟨?_, ?_, ?_⟩
  · show (if pin / 10 = pin / 10 then _ else bank (pin / 10)) >>> _ &&& 7 = fsel
    rw [if_pos rfl]
    exact field_update_self _ _ _ hsh hf
  · intro q hq hdiv hne
    show (if q / 10 = pin / 10 then _ else bank (q / 10)) >>> _ &&& 7 = _
    rw [if_pos hdiv, fselOf, hdiv]
    exact field_update_other _ _ _ _ hsh (by omega) hf (by omega)
  · intro j hj
    show (if j = pin / 10 then _ else bank j) = bank j
    rw [if_neg hj]

/-- Witness for C1 at pin 17, code 5, on a bank holding 0xFFFFFFFF
everywhere: pin 17's field reads back 5, sibling pin 13's field is
unchanged, and register 0 is untouched. -/
theorem set_gpio_correct_witness :
    fselOf (set_gpio (fun _ => 4294967295) 17 5) 17 = 5 ∧
    fselOf (set_gpio (fun _ => 4294967295) 17 5) 13 =
      fselOf (fun _ => 4294967295) 13 ∧
    set_gpio (fun _ => 4294967295) 17 5 0 = 4294967295 :=
  ⟨(set_gpio_correct (fun _ => 4294967295) 17 5 (by decide) (by decide)).1,
   (set_gpio_correct (fun _ => 4294967295) 17 5 (by decide) (by decide)).2.1
      13 (by decide) (by decide) (by decide),
   (set_gpio_correct (fun _ => 4294967295) 17 5 (by decide) (by decide)).2.2
      0 (by decide)⟩

/-! ## Clock generator (set_clock_div, pwm_set_clock_freq)

The clock-manager control register GPCTL has a hardware-driven BUSY bit
(bit 7) and a 4-bit SRC field, so its value may differ at each read.  Reads
of GPCTL are therefore drawn from a read oracle `o : Nat → Nat` giving the
value returned by the n-th read in program order.  Software-owned registers
(the stored GPCTL command, GPDIV, the PWM CTL register) are plain state. -/

/-- Clock-manager and PWM register state: the last value written to GPCTL,
the divider register GPDIV, and the PWM control register CTL. -/
structure ClkState where
  gpctl : Nat
  gpdiv : Nat
  ctl : Nat
deriving DecidableEq

/-- `OSC` of rpi.c: source code of the 19.2 MHz oscillator. -/
def OSC : Nat := 0x1

/-- `PLLD` of rpi.c: source code of the PLLD clock. -/
def PLLD : Nat := 0x6

/-- `get_clk_src` of rpi.c: low 4 bits (SRC field) of a GPCTL read. -/
def get_clk_src (v : Nat) : Nat := v &&& 0xF

/-- `set_clock_div` of rpi.c (lines 699-727) over the GPCTL read oracle:
disable the two PWM enable bits, read the SRC field and write the matching
password-prefixed stop command, kill the clock if the BUSY bit still reads
set, and write the password-prefixed divisor only if the final BUSY read is
clear.  Returns the new state and the number of GPCTL reads consumed. -/
def set_clock_div (div : Nat) (o : Nat → Nat) (st : ClkState) : ClkState × Nat :=
  let s1 : ClkState := {st with ctl := clearBit (clearBit st.ctl 0) 8}
  let p : ClkState × Nat :=
    if get_clk_src (o 0) = OSC then ({s1 with gpctl := 0x5A000001}, 1)
    else if get_clk_src (o 1) = PLLD then ({s1 with gpctl := 0x5A000006}, 2)
    else (s1, 2)
  let s3 : ClkState :=
    if isBitSet (o p.2) 7 then {p.1 with gpctl := 0x5A000020} else p.1
  let s4 : ClkState :=
    if ¬ isBitSet (o (p.2 + 1)) 7 then
      {s3 with gpdiv := 0x5A000000 ||| (div <<< 12)}
    else s3
  (s4, p.2 + 2)

/-- Index of the GPCTL read that guards the kill command. -/
def clkKillIdx (o : Nat → Nat) : Nat :=
  if get_clk_src (o 0) = OSC then 1 else 2

/-- Index of the GPCTL read that guards the divisor write. -/
def clkGuardIdx (o : Nat → Nat) : Nat := clkKillIdx o + 1

/-- Claim C5: in every execution of `set_clock_div` (any divisor, any
oracle, any initial state) the divider register is written exactly when the
final BUSY-guard read has bit 7 clear, and is otherwise left unchanged; the
preceding GPCTL writes are the per-source stop command and, when the
kill-guard read still shows BUSY, the forced-kill command. -/
theorem set_clock_div_busy_guard (div : Nat) (o : Nat → Nat) (st : ClkState) :
    (set_clock_div div o st).1.gpdiv =
      (if isBitSet (o (clkGuardIdx o)) 7 then st.gpdiv
       else 0x5A000000 ||| (div <<< 12)) ∧
    (set_clock_div div o st).1.gpctl =
      (if isBitSet (o (clkKillIdx o)) 7 then 0x5A000020
       else if get_clk_src (o 0) = OSC then 0x5A000001
       else if get_clk_src (o 1) = PLLD then 0x5A000006
       else st.gpctl) := by
  simp only [set_clock_div, clkGuardIdx, clkKillIdx]
  rcases h0 : decide (get_clk_src (o 0) = OSC) with _ | _
  · simp only [decide_eq_false_iff_not] at h0
    rcases h1 : decide (get_clk_src (o 1) = PLLD) with _ | _
    · simp only [decide_eq_false_iff_not] at h1
      rcases hk : isBitSet (o 2) 7 <;> rcases hg : isBitSet (o 3) 7 <;>
        simp [h0, h1, hk, hg]
    · simp only [decide_eq_true_eq] at h1
      rcases hk : isBitSet (o 2) 7 <;> rcases hg : isBitSet (o 3) 7 <;>
        simp [h0, h1, hk, hg]
  · simp only [decide_eq_true_eq] at h0
    rcases hk : isBitSet (o 1) 7 <;> rcases hg : isBitSet (o 2) 7 <;>
      simp [h0, hk, hg]

/-- `pwm_set_clock_freq` of rpi.c (lines 733-753): for a divisor in the open
interval (0, 4096) it runs `set_clock_div`, otherwise it only reports
"Invalid div value" (the Bool in the result); in both cases it then writes
the fixed password-prefixed value 0x5A000011 (19.2 MHz oscillator source,
enable bit) to GPCTL and returns OSC, or 255 (`-1` as a uint8_t), according
to the final SRC read. -/
def pwm_set_clock_freq (div : Nat) (o : Nat → Nat) (st : ClkState) :
    ClkState × Nat × Bool :=
  let p : (ClkState × Nat) × Bool :=
    if 0 < div ∧ div < 4096 then (set_clock_div div o st, false)
    else ((st, 0), true)
  let st2 : ClkState := {p.1.1 with gpctl := 0x5A000011}
  let ret : Nat := if get_clk_src (o p.1.2) = OSC then OSC else 255
  (st2, ret, p.2)

/-- Counterexample to claim C4: with the clock previously configured with
the PLLD source enabled (GPCTL = 0x5A000016) and the invalid divisor 0, the
call leaves the divider register alone but re-enables GPCTL with the fixed
oscillator value 0x5A000011, not the previous configuration 0x5A000016. -/
theorem pwm_set_clock_freq_not_previous_config :
    (pwm_set_clock_freq 0 (fun _ => 0) ⟨0x5A000016, 7, 0⟩).1.gpctl =
      0x5A000011 ∧
    (pwm_set_clock_freq 0 (fun _ => 0) ⟨0x5A000016, 7, 0⟩).1.gpctl ≠
      0x5A000016 ∧
    (pwm_set_clock_freq 0 (fun _ => 0) ⟨0x5A000016, 7, 0⟩).2.2 = true := by
  decide

/-- Claim C4 as amended: for every divisor outside (0, 4096) the call
reports Invalid-Parameter, leaves the divider register value unchanged, and
re-enables the clock by writing the fixed oscillator-source enable value
0x5A000011 to GPCTL regardless of the previous configuration. -/
theorem pwm_set_clock_freq_invalid_div (div : Nat) (o : Nat → Nat)
    (st : ClkState) (h : div = 0 ∨ 4096 ≤ div) :
    (pwm_set_clock_freq div o st).2.2 = true ∧
    (pwm_set_clock_freq div o st).1.gpdiv = st.gpdiv ∧
    (pwm_set_clock_freq div o st).1.gpctl = 0x5A000011 := by
  have hv : ¬ (0 < div ∧ div < 4096) := by omega
  simp [pwm_set_clock_freq, hv]

/-- Witness for the amended C4 at divisor 4096. -/
theorem pwm_set_clock_freq_invalid_div_witness :
    (pwm_set_clock_freq 4096 (fun _ => 0) ⟨3, 7, 0⟩).2.2 = true ∧
    (pwm_set_clock_freq 4096 (fun _ => 0) ⟨3, 7, 0⟩).1.gpdiv = 7 ∧
    (pwm_set_clock_freq 4096 (fun _ => 0) ⟨3, 7, 0⟩).1.gpctl = 0x5A000011 :=
  pwm_set_clock_freq_invalid_div 4096 (fun _ => 0) ⟨3, 7, 0⟩ (by decide)

/-! ## Two-wire (I2C) bus engine

Software-owned registers of the BSC controller: the control register C, the
stored (last-written) status register S, the data-length register DLEN and
the slave-address register A.  The hardware-driven status bits consulted by
the error-classification phase after a transfer are taken from a status
snapshot parameter `hw`.  The FIFO polling loops are resolved against the
deterministic peripheral model in which the engine moves exactly the number
of bytes programmed in DLEN: the FIFO-space flag TXW (S bit 2) and the
FIFO-data flag RXD (S bit 5) hold until DLEN bytes have moved, after which
the DONE flag (S bit 1) reads set, so the source's nested while-loop moves
bytes 0..DLEN-1 of the buffer. -/

/-- BSC (two-wire) controller register state. -/
structure I2CState where
  c : Nat
  s : Nat
  dlen : Nat
  a : Nat
deriving DecidableEq

/-- `clear_fifo` of rpi.c (lines 978-983): read-modify-write of bits 4-5 of
the given register, first cleared with `~(3 << 4)` and then set to `3 << 4`. -/
def clear_fifo (v : Nat) : Nat :=
  let v1 := v &&& ((2 ^ 32 - 1) ^^^ (3 <<< 4))
  v1 ||| (3 <<< 4)

/-- `reset_error_status` of rpi.c: write 1 to the CLKT (9), ERR (8) and
DONE (1) fields of the stored status register. -/
def reset_error_status (s : Nat) : Nat := setBit (setBit (setBit s 9) 8) 1

/-- The bytes moved through the FIFO by the polling loop: `n` bytes of
`buf` starting at index `i`, in order. -/
def fifoBytes (buf : Nat → Nat) : Nat → Nat → List Nat
  | 0, _ => []
  | n + 1, i => buf i :: fifoBytes buf n (i + 1)

/-- `i2c_write` of rpi.c (lines 1060-1125): clears the FIFO and the sticky
error bits, programs DLEN with the requested length *before* capping the
length at 16 (the cap and its warning come after the DLEN store), clears
the read-direction bit, starts the transfer, pushes bytes while the
peripheral asserts FIFO-space (DLEN bytes under the peripheral model), and
classifies the result from the status snapshot `hw`: NACK (bit 8) gives
0x01, then clock-stretch-timeout (bit 9) overwrites with 0x02, then
FIFO-space-left or a short count overwrites with 0x04, and a transfer that
did not end with DONE set and transfer-active clear overwrites with 0x04.
Returns (state, bytes pushed, result code). -/
def i2c_write (buf : Nat → Nat) (len : Nat) (hw : Nat) (st : I2CState) :
    I2CState × List Nat × Nat :=
  let st := {st with c := clear_fifo st.c}
  let st := {st with s := reset_error_status st.s}
  let st := {st with dlen := len}
  let lenc := if len > 16 then 16 else len
  let st := {st with c := clearBit st.c 0}
  let st := {st with c := setBit st.c 7}
  let pushed := fifoBytes buf st.dlen 0
  let i := st.dlen
  let result : Nat := 0
  let result := if isBitSet hw 8 then 1 else result
  let result := if isBitSet hw 9 then 2 else result
  let result := if isBitSet hw 2 || decide (i < lenc) then 4 else result
  let p : I2CState × Nat :=
    if isBitSet hw 1 && !isBitSet hw 0 then ({st with s := setBit st.s 1}, result)
    else (st, 4)
  (p.1, pushed, p.2)

/-- `i2c_read` of rpi.c (lines 1128-1189): clears the FIFO and sticky error
bits, programs DLEN with the requested length, sets the read-direction bit,
starts the transfer, drains bytes while the peripheral asserts FIFO-data
and fewer than `len` bytes were read (DLEN = len bytes under the peripheral
model), and classifies from the status snapshot: first the completion check
(no DONE with transfer-active clear gives 0x04), then an if/else-if chain:
NACK gives 0x01, else clock-stretch-timeout gives 0x02, else leftover
FIFO-data or a short count gives 0x04.  Returns (state, bytes read, result). -/
def i2c_read (fdata : Nat → Nat) (len : Nat) (hw : Nat) (st : I2CState) :
    I2CState × List Nat × Nat :=
  let st := {st with c := clear_fifo st.c}
  let st := {st with s := reset_error_status st.s}
  let st := {st with dlen := len}
  let st := {st with c := setBit st.c 0}
  let st := {st with c := setBit st.c 7}
  let got := fifoBytes fdata st.dlen 0
  let i := st.dlen
  let p : I2CState × Nat :=
    if isBitSet hw 1 && !isBitSet hw 0 then ({st with s := setBit st.s 1}, 0)
    else (st, 4)
  let result :=
    if isBitSet hw 8 then 1
    else if isBitSet hw 9 then 2
    else if isBitSet hw 5 || decide (i < len) then 4
    else p.2
  (p.1, got, result)

/-- Theorem for the C2 code bug, evaluated at the failing input: a write of
length 20 programs DLEN = 20 (the DLEN store happens before the 16-byte
cap) and pushes 20 bytes, not 16; a write of length 10 pushes exactly 10
bytes and returns success (0) when the status snapshot has DONE set and
transfer-active clear. -/
theorem i2c_write_cap_bug :
    (i2c_write (fun i => i) 20 2 ⟨0, 0, 0, 0⟩).1.dlen = 20 ∧
    (i2c_write (fun i => i) 20 2 ⟨0, 0, 0, 0⟩).2.1.length = 20 ∧
    (i2c_write (fun i => i) 10 2 ⟨0, 0, 0, 0⟩).2.1.length = 10 ∧
    (i2c_write (fun i => i) 10 2 ⟨0, 0, 0, 0⟩).2.2 = 0 := by
  decide

/-- Counterexample to claim C3: a final status with both the NACK bit (8)
and the clock-stretch-timeout bit (9) set (together with DONE) makes
`i2c_write` return 2, not the Bus-Not-Acknowledged code 1, so the write
classification is not independent of the other status bits. -/
theorem i2c_write_nack_not_independent :
    isBitSet 770 8 = true ∧
    (i2c_write (fun i => i) 10 770 ⟨0, 0, 0, 0⟩).2.2 ≠ 1 := by
  decide

/-- Claim C3 as amended: `i2c_read` returns the Bus-Not-Acknowledged code 1
exactly when status bit 8 is set, independent of the other status bits;
`i2c_write` returns it exactly when bit 8 is set *and* the
clock-stretch-timeout bit (9) and FIFO-space bit (2) are clear, DONE (1) is
set and transfer-active (0) is clear, because each later check of the write
classification chain overwrites the NACK code. -/
theorem i2c_nack_classification (fdata buf : Nat → Nat) (len : Nat)
    (hw : Nat) (st st' : I2CState) :
    ((i2c_read fdata len hw st).2.2 = 1 ↔ isBitSet hw 8 = true) ∧
    ((i2c_write buf len hw st').2.2 = 1 ↔
      (isBitSet hw 8 = true ∧ isBitSet hw 9 = false ∧
       isBitSet hw 2 = false ∧ isBitSet hw 1 = true ∧
       isBitSet hw 0 = false)) := by
  have hcap : ¬ (len < (if len > 16 then 16 else len)) := by
    split <;> omega
  constructor
  · simp only [i2c_read]
    rcases h8 : isBitSet hw 8 <;> rcases h9 : isBitSet hw 9 <;>
      rcases h5 : isBitSet hw 5 <;> rcases h1 : isBitSet hw 1 <;>
      rcases h0 : isBitSet hw 0 <;>
      simp [h8, h9, h5, h1, h0]
  · simp only [i2c_write]
    rcases h8 : isBitSet hw 8 <;> rcases h9 : isBitSet hw 9 <;>
      rcases h2 : isBitSet hw 2 <;> rcases h1 : isBitSet hw 1 <;>
      rcases h0 : isBitSet hw 0 <;>
      simp [h8, h9, h2, h1, h0, hcap]

/-- `i2c_slave_write_test` of rpi.c (lines 993-1044): the one-byte probe
write.  Same setup and push loop as `i2c_write`, including storing DLEN
before the 16-byte cap (the capped local length is dead in this function:
nothing reads it after the cap, so it is not modelled), but the
classification only checks NACK (result 0x01) and then the completion
check, whose failure overwrites the result with 0x04.  Returns
(state, bytes pushed, result). -/
def i2c_slave_write_test (buf : Nat → Nat) (len : Nat) (hw : Nat)
    (st : I2CState) : I2CState × List Nat × Nat :=
  let st := {st with c := clear_fifo st.c}
  let st := {st with s := reset_error_status st.s}
  let st := {st with dlen := len}
  let st := {st with c := clearBit st.c 0}
  let st := {st with c := setBit st.c 7}
  let pushed := fifoBytes buf st.dlen 0
  let result : Nat := if isBitSet hw 8 then 1 else 0
  let p : I2CState × Nat :=
    if isBitSet hw 1 && !isBitSet hw 0 then ({st with s := setBit st.s 1}, result)
    else (st, 4)
  (p.1, pushed, p.2)

/-- The probe buffer of `i2c_select_slave`: `char buf[2] = { 0x01 }`. -/
def probeBuf : Nat → Nat := fun i => if i = 0 then 1 else 0

/-- `i2c_select_slave` of rpi.c (lines 1048-1057): stores the address in
the A register and runs the one-byte probe write; the probe's return value
is discarded and the C function returns void, so the caller-visible result
is only the register state. -/
def i2c_select_slave (addr : Nat) (hw : Nat) (st : I2CState) : I2CState :=
  let st := {st with a := addr}
  (i2c_slave_write_test probeBuf 1 hw st).1

/-- Counterexample to claim C8: with status 258 (DONE and NACK set) the
probe classifies the transaction as Bus-Not-Acknowledged (1), with status 2
(DONE only) it classifies success (0), yet `i2c_select_slave` returns
exactly the same thing in both cases - the probe's error classification is
discarded and never reaches the caller of selectSlave. -/
theorem i2c_select_slave_swallows_probe_error :
    (i2c_slave_write_test probeBuf 1 258 ⟨0, 0, 0, 5⟩).2.2 = 1 ∧
    (i2c_slave_write_test probeBuf 1 2 ⟨0, 0, 0, 5⟩).2.2 = 0 ∧
    i2c_select_slave 5 258 ⟨0, 0, 0, 0⟩ = i2c_select_slave 5 2 ⟨0, 0, 0, 0⟩ := by
  decide

/-- Claim C8 as amended: the probe write inside `i2c_select_slave` does
return its error classification to its immediate caller `i2c_select_slave` -
0x01 whenever the NACK bit is set and the transfer completed (DONE set,
transfer-active clear), and 0x04 whenever the transfer is incomplete (DONE
clear or transfer-active set) - but `i2c_select_slave` itself returns void
and discards that classification: its caller-visible result does not depend
on the NACK status bit at all. -/
theorem i2c_select_slave_amended (addr hw : Nat) (st : I2CState) :
    i2c_select_slave addr (setBit hw 8) st = i2c_select_slave addr hw st ∧
    (isBitSet hw 1 = true → isBitSet hw 0 = false →
      (i2c_slave_write_test probeBuf 1 (setBit hw 8) st).2.2 = 1) ∧
    (isBitSet hw 1 = false ∨ isBitSet hw 0 = true →
      (i2c_slave_write_test probeBuf 1 hw st).2.2 = 4) := by
  have hb8 : isBitSet (setBit hw 8) 8 = true := by
    simp [isBitSet, setBit, show Nat.testBit 256 8 = true from by decide]
  have hb1 : isBitSet (setBit hw 8) 1 = isBitSet hw 1 := by
    simp [isBitSet, setBit, show Nat.testBit 256 1 = false from by decide]
  have hb0 : isBitSet (setBit hw 8) 0 = isBitSet hw 0 := by
    simp [isBitSet, setBit, show Nat.testBit 256 0 = false from by decide]
  refine ⟨?_, ?_, ?_⟩
  · simp only [i2c_select_slave, i2c_slave_write_test, hb1, hb0]
    rcases h : isBitSet hw 1 && !isBitSet hw 0 <;> simp [h]
  · intro h1 h0
    simp [i2c_slave_write_test, hb8, hb1, hb0, h1, h0]
  · intro h
    rcases h with h | h <;> simp [i2c_slave_write_test, h]

/-- Witness for the amended C8 at address 5: base status 2 (DONE set,
transfer-active clear) for the NACK-classified probe, and status 0 (DONE
clear) for the incomplete-transfer probe. -/
theorem i2c_select_slave_amended_witness :
    i2c_select_slave 5 (setBit 2 8) ⟨0, 0, 0, 0⟩ =
      i2c_select_slave 5 2 ⟨0, 0, 0, 0⟩ ∧
    (i2c_slave_write_test probeBuf 1 (setBit 2 8) ⟨0, 0, 0, 0⟩).2.2 = 1 ∧
    (i2c_slave_write_test probeBuf 1 0 ⟨0, 0, 0, 0⟩).2.2 = 4 :=
  ⟨(i2c_select_slave_amended 5 2 ⟨0, 0, 0, 0⟩).1,
   (i2c_select_slave_amended 5 2 ⟨0, 0, 0, 0⟩).2.1 (by decide) (by decide),
   (i2c_select_slave_amended 5 0 ⟨0, 0, 0, 0⟩).2.2 (Or.inl (by decide))⟩

/-- `i2c_byte_read` of rpi.c (lines 1192-1255): single-byte read.  `fdata`
is the byte drained from the FIFO by the polling loop.  If the completion
check fails the function returns 0x04; otherwise it returns 0x01 on NACK,
0x02 on clock-stretch-timeout, 0x04 on leftover FIFO data, and the data
byte itself on success - all from the same uint8_t range. -/
def i2c_byte_read (fdata : Nat) (hw : Nat) (st : I2CState) : I2CState × Nat :=
  let st := {st with c := clear_fifo st.c}
  let st := {st with s := reset_error_status st.s}
  let st := {st with c := setBit st.c 0}
  let st := {st with c := setBit st.c 7}
  let st := {st with dlen := 1}
  let data := fdata
  if isBitSet hw 1 && !isBitSet hw 0 then
    let st := {st with s := setBit st.s 1}
    if isBitSet hw 8 then (st, 1)
    else if isBitSet hw 9 then (st, 2)
    else if isBitSet hw 5 then (st, 4)
    else (st, data)
  else (st, 4)

/-- Claim C10: for every state and data byte, `i2c_byte_read` returns the
data byte itself under a clean success status (2 = DONE set, no errors) but
returns 1, 2 or 4 under the NACK status 258, the clock-stretch status 514
and the incomplete status 0; hence a successful read of the byte 1 (or 2,
or 4) is indistinguishable at the interface from the corresponding error
return. -/
theorem i2c_byte_read_ambiguous (st : I2CState) (d : Nat) :
    (i2c_byte_read d 2 st).2 = d ∧
    (i2c_byte_read d 258 st).2 = 1 ∧
    (i2c_byte_read d 514 st).2 = 2 ∧
    (i2c_byte_read d 0 st).2 = 4 ∧
    (i2c_byte_read 1 2 st).2 = (i2c_byte_read d 258 st).2 ∧
    (i2c_byte_read 2 2 st).2 = (i2c_byte_read d 514 st).2 ∧
    (i2c_byte_read 4 2 st).2 = (i2c_byte_read d 0 st).2 := by
  refine ⟨?_, ?_, ?_, ?_, ?_, ?_, ?_⟩ <;>
    simp [i2c_byte_read, isBitSet, show (2 : Nat).testBit 1 = true by decide,
      show (2 : Nat).testBit 0 = false by decide,
      show (2 : Nat).testBit 8 = false by decide,
      show (2 : Nat).testBit 9 = false by decide,
      show (2 : Nat).testBit 5 = false by decide,
      show (258 : Nat).testBit 1 = true by decide,
      show (258 : Nat).testBit 0 = false by decide,
      show (258 : Nat).testBit 8 = true by decide,
      show (514 : Nat).testBit 1 = true by decide,
      show (514 : Nat).testBit 0 = false by decide,
      show (514 : Nat).testBit 8 = false by decide,
      show (514 : Nat).testBit 9 = true by decide,
      show (0 : Nat).testBit 1 = false by decide]

/-! ## Four-wire (SPI) bus engine -/

/-- `spi_set_data_mode` of rpi.c (lines 1348-1374): per-mode set/clear of
the CPHA bit (SPI_CS bit 2) and the CPOL bit (SPI_CS bit 3).  Note the
mode-3 branch of the source executes `clearBit(SPI_CS, 2); clearBit(SPI_CS, 3)`
although its own comments say CPHA 1 / CPOL 1. -/
def spi_set_data_mode (mode : Nat) (cs : Nat) : Nat :=
  if mode = 0 then clearBit (clearBit cs 2) 3
  else if mode = 1 then clearBit (setBit cs 2) 3
  else if mode = 2 then setBit (clearBit cs 2) 3
  else if mode = 3 then clearBit (clearBit cs 2) 3
  else cs

/-- Theorem for the C6 code bug, evaluated at the failing input mode = 3:
modes 0, 1, 2 produce the advertised CPHA/CPOL pairs (0,0), (1,0), (0,1),
but mode 3 clears both bits - identical to mode 0 - instead of the
advertised (1,1), so the four modes are not four distinct combinations. -/
theorem spi_set_data_mode_mode3_bug :
    isBitSet (spi_set_data_mode 0 12) 2 = false ∧
    isBitSet (spi_set_data_mode 0 12) 3 = false ∧
    isBitSet (spi_set_data_mode 1 12) 2 = true ∧
    isBitSet (spi_set_data_mode 1 12) 3 = false ∧
    isBitSet (spi_set_data_mode 2 12) 2 = false ∧
    isBitSet (spi_set_data_mode 2 12) 3 = true ∧
    isBitSet (spi_set_data_mode 3 12) 2 = false ∧
    isBitSet (spi_set_data_mode 3 12) 3 = false ∧
    spi_set_data_mode 3 12 = spi_set_data_mode 0 12 := by
  decide

/-- `spi_set_chip_select_polarity` of rpi.c (lines 1397-1424): first clears
all three CSPOL bits 21, 22 and 23 of SPI_CS, then sets or clears the bit
selected by the chip-select index and the active flag. -/
def spi_set_chip_select_polarity (cs active : Nat) (v : Nat) : Nat :=
  let v := clearBit v 21
  let v := clearBit v 22
  let v := clearBit v 23
  if cs = 0 ∧ active = 1 then setBit v 21
  else if cs = 0 ∧ active = 0 then clearBit v 21
  else if cs = 1 ∧ active = 1 then setBit v 22
  else if cs = 1 ∧ active = 0 then clearBit v 22
  else if cs = 2 ∧ active = 1 then setBit v 23
  else if cs = 2 ∧ active = 0 then clearBit v 23
  else v

/-- Counterexample to claim C7: calling the polarity setter for index 0
wipes the polarity bit of index 1 - with bits 22 and 23 initially set, the
call `spi_set_chip_select_polarity 0 1` leaves bit 22 cleared, so the other
two per-chip polarity bits do not retain their prior values. -/
theorem spi_set_chip_select_polarity_not_frame :
    isBitSet (2 ^ 22 + 2 ^ 23) 22 = true ∧
    isBitSet (spi_set_chip_select_polarity 0 1 (2 ^ 22 + 2 ^ 23)) 22 = false ∧
    isBitSet (spi_set_chip_select_polarity 0 1 (2 ^ 22 + 2 ^ 23)) 23 = false := by
  decide

theorem testBit_clearBit (v p q : Nat) (hq : q < 32) :
    Nat.testBit (clearBit v p) q = (Nat.testBit v q && !decide (q = p)) := by
  simp only [clearBit, Nat.testBit_and, Nat.testBit_xor,
    Nat.testBit_two_pow_sub_one, Nat.shiftLeft_eq, Nat.one_mul,
    Nat.testBit_two_pow, hq, decide_True]
  rcases hpq : decide (q = p) with _ | _
  · simp only [decide_eq_false_iff_not] at hpq
    simp [Ne.symm hpq]
  · simp only [decide_eq_true_eq] at hpq
    simp [hpq]

theorem testBit_setBit (v p q : Nat) :
    Nat.testBit (setBit v p) q = (Nat.testBit v q || decide (q = p)) := by
  simp only [setBit, Nat.testBit_or, Nat.shiftLeft_eq, Nat.one_mul,
    Nat.testBit_two_pow]
  rcases hpq : decide (q = p) with _ | _
  · simp only [decide_eq_false_iff_not] at hpq
    simp [Ne.symm hpq]
  · simp only [decide_eq_true_eq] at hpq
    simp [hpq]

/-- Claim C7 as amended: for chip-select index 0-2 and activeHigh 0-1, the
setter forces the polarity bits of the two non-selected indices to 0
(rather than preserving them) and leaves the selected index's bit equal to
the activeHigh flag. -/
theorem spi_set_chip_select_polarity_amended (cs active v : Nat)
    (hcs : cs ≤ 2) (ha : active ≤ 1) :
    isBitSet (spi_set_chip_select_polarity cs active v) (21 + cs) =
      decide (active = 1) ∧
    (∀ j, j ≤ 2 → j ≠ cs →
      isBitSet (spi_set_chip_select_polarity cs active v) (21 + j) = false) := by
  interval_cases cs <;> interval_cases active <;>
    constructor <;>
    first
      | (intro j hj hne; interval_cases j <;>
          simp_all [spi_set_chip_select_polarity, isBitSet,
            testBit_clearBit, testBit_setBit])
      | simp [spi_set_chip_select_polarity, isBitSet,
          testBit_clearBit, testBit_setBit]

/-- Witness for the amended C7 at index 0, activeHigh 1, register value
with bits 22 and 23 set. -/
theorem spi_set_chip_select_polarity_amended_witness :
    isBitSet (spi_set_chip_select_polarity 0 1 (2 ^ 22 + 2 ^ 23)) 21 =
      decide ((1 : Nat) = 1) ∧
    isBitSet (spi_set_chip_select_polarity 0 1 (2 ^ 22 + 2 ^ 23)) 23 = false :=
  ⟨(spi_set_chip_select_polarity_amended 0 1 (2 ^ 22 + 2 ^ 23)
      (by decide) (by decide)).1,
   (spi_set_chip_select_polarity_amended 0 1 (2 ^ 22 + 2 ^ 23)
      (by decide) (by decide)).2 2 (by decide) (by decide)⟩

/-- The registers touched by `spi_start` / `spi_stop`: the GPIO
function-select bank, the two-wire (BSC1) control register C, and the
four-wire control register SPI_CS. -/
structure SpiEnv where
  gpsel : Nat → Nat
  c : Nat
  spiCs : Nat

/-- `spi_start` of rpi.c (lines 1293-1313): claims the five SPI pins into
alternate function 0, clears SPI_CS bit 13 (standard-controller mode), and
then performs its clear-FIFO step as `clear_fifo(C)` - a read-modify-write
of bits 4-5 of the two-wire controller's register C, not of SPI_CS. -/
def spi_start (st : SpiEnv) : SpiEnv :=
  let g := set_gpio st.gpsel 8 4
  let g := set_gpio g 7 4
  let g := set_gpio g 10 4
  let g := set_gpio g 9 4
  let g := set_gpio g 11 4
  let cs := clearBit st.spiCs 13
  let c := clear_fifo st.c
  { gpsel := g, c := c, spiCs := cs }

/-- `spi_stop` of rpi.c (lines 1318-1328): performs `clear_fifo(C)` - again
on the two-wire controller's register C - and returns the five SPI pins to
input function; SPI_CS is not touched at all. -/
def spi_stop (st : SpiEnv) : SpiEnv :=
  let c := clear_fifo st.c
  let g := set_gpio st.gpsel 8 0
  let g := set_gpio g 7 0
  let g := set_gpio g 10 0
  let g := set_gpio g 9 0
  let g := set_gpio g 11 0
  { gpsel := g, c := c, spiCs := st.spiCs }

/-- Claim C9: the clear-FIFO step of both `spi_start` and `spi_stop`
read-modify-writes the two-wire control register C (leaving its bits 4-5
set afterwards, per `clear_fifo`) while the FIFO-clear field (bits 4-5) of
the four-wire SPI_CS register keeps its previous value bit-for-bit. -/
theorem spi_start_stop_clear_fifo_on_twowire (st : SpiEnv) :
    (spi_start st).c = clear_fifo st.c ∧
    isBitSet (spi_start st).c 4 = true ∧
    isBitSet (spi_start st).c 5 = true ∧
    isBitSet (spi_start st).spiCs 4 = isBitSet st.spiCs 4 ∧
    isBitSet (spi_start st).spiCs 5 = isBitSet st.spiCs 5 ∧
    (spi_stop st).c = clear_fifo st.c ∧
    isBitSet (spi_stop st).c 4 = true ∧
    isBitSet (spi_stop st).c 5 = true ∧
    (spi_stop st).spiCs = st.spiCs := by
  have h4 : ∀ v : Nat, Nat.testBit (clear_fifo v) 4 = true := by
    intro v
    simp [clear_fifo, Nat.testBit_or, show Nat.testBit 48 4 = true from by decide]
  have h5 : ∀ v : Nat, Nat.testBit (clear_fifo v) 5 = true := by
    intro v
    simp [clear_fifo, Nat.testBit_or, show Nat.testBit 48 5 = true from by decide]
  refine ⟨rfl, h4 _, h5 _, ?_, ?_, rfl, h4 _, h5 _, rfl⟩
  · show Nat.testBit (clearBit st.spiCs 13) 4 = Nat.testBit st.spiCs 4
    rw [testBit_clearBit _ _ _ (by omega)]
    simp
  · show Nat.testBit (clearBit st.spiCs 13) 5 = Nat.testBit st.spiCs 5
    rw [testBit_clearBit _ _ _ (by omega)]
    simp

end Rpi
